import Mathlib

/-!
Verification of the credential data model and serialization layer of
`okta-aws-cli` (`internal/aws/aws.go`), shallowly embedded in Lean 4.

The embedding follows the Go source closely:

* the four credential variants are Lean structures with the same fields;
* `ProcessCredential.MarshalJSON` is reproduced step by step, including the
  anonymous "shadow" struct whose `Expiration` field is typed `string` with
  json tag `"Expiration"` (note: the tag in the source carries *no*
  `omitempty` option);
* Go's `encoding/json` behaviour on the shadow struct is embedded: field
  promotion order of the embedded `*Alias`, the `omitempty` rule for the
  tagged string/int fields, Go's JSON string escaping (with the default
  HTML escaping of `json.Marshal`), and integer rendering;
* `time.Time.Format(time.RFC3339)` is embedded for wall-clock times at
  second precision with a fixed zone offset, exactly the profile the layout
  string `"2006-01-02T15:04:05Z07:00"` produces.

Machine integers: Go's `int` arithmetic never overflows in this code (the
only int is the protocol `Version`, which is stored and compared, never
computed with), so it is modelled as `Int`.
-/

namespace OktaAws

/-- A wall-clock instant as far as `time.Time.Format(time.RFC3339)` reads it:
calendar fields at second precision plus the zone offset in seconds east of
UTC. `time.RFC3339 = "2006-01-02T15:04:05Z07:00"` consults exactly these. -/
structure GoTime where
  year : Nat
  month : Nat
  day : Nat
  hour : Nat
  minute : Nat
  second : Nat
  /-- zone offset, seconds east of UTC -/
  offset : Int
  deriving DecidableEq, Repr

/-- Left-pad the decimal representation of `n` with zeros to width 2,
as Go's `Format` does for the `01`, `02`, `15`, `04`, `05` layout verbs. -/
def pad2 (n : Nat) : String :=
  if n < 10 then "0" ++ toString n else toString n

/-- Left-pad the decimal representation of `n` with zeros to width 4,
as Go's `Format` does for the `2006` (year) layout verb. -/
def pad4 (n : Nat) : String :=
  if n < 10 then "000" ++ toString n
  else if n < 100 then "00" ++ toString n
  else if n < 1000 then "0" ++ toString n
  else toString n

/-- The `Z07:00` layout verb: `"Z"` for a zero offset, otherwise a signed
`hh:mm` rendering of the offset (Go truncates towards zero to minutes). -/
def formatZone (offset : Int) : String :=
  if offset = 0 then "Z"
  else
    let sign := if offset < 0 then "-" else "+"
    let m := offset.natAbs / 60
    sign ++ pad2 (m / 60) ++ ":" ++ pad2 (m % 60)

/-- `time.Time.Format(time.RFC3339)`: the fixed-offset, second-precision
RFC 3339 date-time string, e.g. `2023-01-02T15:04:05Z`. -/
def formatRFC3339 (t : GoTime) : String :=
  pad4 t.year ++ "-" ++ pad2 t.month ++ "-" ++ pad2 t.day ++ "T" ++
  pad2 t.hour ++ ":" ++ pad2 t.minute ++ ":" ++ pad2 t.second ++
  formatZone t.offset

/-- The JSON values that can appear in the shadow struct Go marshals:
tagged string fields and the tagged int field. -/
inductive JValue where
  | str : String → JValue
  | num : Int → JValue
  deriving DecidableEq, Repr

/-- The lowercase hex digit for `n < 16`, as `encoding/json` indexes its
digit table `"0123456789abcdef"` when writing `\u00xx` escapes. -/
def hexDigit (n : Nat) : Char :=
  if n < 10 then Char.ofNat (48 + n) else Char.ofNat (87 + n)

/-- How `encoding/json`'s string encoder (with the default HTML escaping of
`json.Marshal`) renders one character: `"`, `\\`, `\n`, `\r`, `\t` get
two-character escapes; other control characters below U+0020 get `\u00xx`;
`<`, `>`, `&` get HTML-safe `\u00xx` escapes; U+2028 and U+2029 get
`\u202x` escapes; everything else is copied verbatim. -/
def escapeChar (c : Char) : String :=
  if c = '"' then "\\\""
  else if c = '\\' then "\\\\"
  else if c = '\n' then "\\n"
  else if c = '\r' then "\\r"
  else if c = '\t' then "\\t"
  else if c.toNat < 0x20 then
    "\\u00" ++ String.mk [hexDigit (c.toNat / 16), hexDigit (c.toNat % 16)]
  else if c = '<' then "\\u003c"
  else if c = '>' then "\\u003e"
  else if c = '&' then "\\u0026"
  else if c.toNat = 0x2028 then "\\u2028"
  else if c.toNat = 0x2029 then "\\u2029"
  else String.mk [c]

/-- `encoding/json` rendering of a Go string as a JSON string literal. -/
def encodeString (s : String) : String :=
  "\"" ++ String.join (s.data.map escapeChar) ++ "\""

/-- `encoding/json` rendering of one field value. -/
def renderValue : JValue → String
  | .str s => encodeString s
  | .num n => toString n

/-- `encoding/json` rendering of a struct as a JSON object, given the
already-filtered field list in emission order: the keys here come from
struct tags that contain no characters needing escapes, so they are written
verbatim between quotes, as Go's cached `nameNonEsc` does. -/
def renderObject (fields : List (String × JValue)) : String :=
  "\x7b" ++
    String.intercalate ","
      (fields.map (fun f => "\"" ++ f.1 ++ "\":" ++ renderValue f.2)) ++
  "\x7d"

/-- First-match association lookup over an emitted field list (the JSON
object read as a key/value map, duplicate-free here by construction). -/
def getField : List (String × JValue) → String → Option JValue
  | [], _ => none
  | (k, v) :: rest, key => if k = key then some v else getField rest key

/-- `ProcessCredential` (aws.go): the `credential_process` shape.
`Expiration *time.Time` is `Option GoTime`; a `nil` pointer is `none`. -/
structure ProcessCredential where
  AccessKeyID : String
  SecretAccessKey : String
  SessionToken : String
  Expiration : Option GoTime
  Version : Int
  deriving DecidableEq, Repr

namespace ProcessCredential

/-- The local `exp` variable of `MarshalJSON`: `""` unless the credential
has an expiration, in which case its RFC 3339 rendering. -/
def expVar (c : ProcessCredential) : String :=
  match c.Expiration with
  | some t => formatRFC3339 t
  | none => ""

/-- The field list `encoding/json` emits for the anonymous shadow struct of
`MarshalJSON`. Promotion order of the embedded `*Alias` puts its tagged
fields (`AccessKeyId,omitempty`, `SecretAccessKey,omitempty`,
`SessionToken,omitempty`, `Version,omitempty`) first; the outer
`Expiration string` field, whose tag is plain `"Expiration"` with no
`omitempty`, shadows the embedded `Expiration,omitempty` field (shallower
depth wins) and is emitted last — unconditionally, because without
`omitempty` the empty string is not suppressed. Its value is the shadow
struct's `Expiration` field: the zero value `""` overwritten with `exp`
when `exp` is non-empty. -/
def shadowFields (c : ProcessCredential) : List (String × JValue) :=
  (if c.AccessKeyID = "" then [] else [("AccessKeyId", JValue.str c.AccessKeyID)]) ++
  (if c.SecretAccessKey = "" then [] else [("SecretAccessKey", JValue.str c.SecretAccessKey)]) ++
  (if c.SessionToken = "" then [] else [("SessionToken", JValue.str c.SessionToken)]) ++
  (if c.Version = 0 then [] else [("Version", JValue.num c.Version)]) ++
  [("Expiration", JValue.str (if c.expVar = "" then "" else c.expVar))]

/-- `ProcessCredential.MarshalJSON` (aws.go lines 86–103): build the shadow
struct and marshal it. `json.Marshal` can fail only on values the encoder
does not support (channels, functions, cyclic data, …); every field of the
shadow struct is a tagged `string` or `int`, on which the encoder is total,
so the embedding of this call site always returns `ok`. -/
def MarshalJSON (c : ProcessCredential) : Except String String :=
  Except.ok (renderObject c.shadowFields)

end ProcessCredential

/-- `EnvVarCredential` (aws.go): the environment-variable shape. -/
structure EnvVarCredential where
  AccessKeyID : String
  SecretAccessKey : String
  SessionToken : String
  deriving DecidableEq, Repr

/-- `EnvVarCredential.IsCredential` (aws.go line 51). -/
def EnvVarCredential.IsCredential (_ : EnvVarCredential) : Bool := true

/-- `CredsFileCredential` (aws.go): the credentials-file shape; `profile`
is the unexported field reachable only through `SetProfile`/`Profile`. -/
structure CredsFileCredential where
  AccessKeyID : String
  SecretAccessKey : String
  SessionToken : String
  profile : String
  deriving DecidableEq, Repr

/-- A `CredsFileCredential` as Go constructs it: a struct literal can set
only the exported fields, so `profile` starts as its zero value `""`. -/
def initCredsFileCredential (a s t : String) : CredsFileCredential :=
  ⟨a, s, t, ""⟩

/-- `CredsFileCredential.IsCredential` (aws.go line 64). -/
def CredsFileCredential.IsCredential (_ : CredsFileCredential) : Bool := true

/-- `CredsFileCredential.SetProfile` (aws.go line 67): `c.profile = p`,
modelled as a functional update of the receiver. -/
def CredsFileCredential.SetProfile (c : CredsFileCredential) (p : String) :
    CredsFileCredential :=
  { c with profile := p }

/-- `CredsFileCredential.Profile` (aws.go line 70). -/
def CredsFileCredential.Profile (c : CredsFileCredential) : String :=
  c.profile

/-- `ProcessCredential.IsCredential` (aws.go line 84). -/
def ProcessCredential.IsCredential (_ : ProcessCredential) : Bool := true

/-- `NoopCredential` (aws.go): the "emit nothing" sentinel. -/
structure NoopCredential where
  deriving DecidableEq, Repr

/-- `NoopCredential.IsCredential` (aws.go line 109). -/
def NoopCredential.IsCredential (_ : NoopCredential) : Bool := true

/-- Decidable prefix test on character lists. -/
def startsWithChars : List Char → List Char → Bool
  | [], _ => true
  | _ :: _, [] => false
  | a :: as, b :: bs => a = b && startsWithChars as bs

/-- Decidable infix test on character lists: `sub` occurs contiguously. -/
def occursWithin (sub : List Char) (l : List Char) : Bool :=
  match l with
  | [] => sub.isEmpty
  | _ :: rest => startsWithChars sub l || occursWithin sub rest

/-- Substring test on strings, used to state "the output contains …". -/
def strContains (s sub : String) : Bool :=
  occursWithin sub.data s.data

/-!
## Theorems

Each claim `C1`–`C10` of the specification is settled by exactly one
theorem below; shared helper lemmas precede them.
-/

/-- The conditional copy `if exp != "" { obj.Expiration = exp }` applied to
the zero value `""` is the identity on the copied string. -/
theorem ite_empty_string_self (s : String) : (if s = "" then "" else s) = s := by
  split <;> simp_all

/-- C1: the claim states that when `Expiration` is nil, `MarshalJSON` omits
the `Expiration` key entirely. The code does the opposite: the shadow
struct's `Expiration string` field carries the tag `json:"Expiration"`
without `omitempty`, so the empty string is not suppressed and every
credential without an expiration is serialized with `"Expiration":""`.
This theorem evaluates the embedded code: for every credential with
`Expiration = none` the emitted field list binds `Expiration` to the empty
string, and at a concrete failing input the full output bytes carry
`"Expiration":""`. -/
theorem marshal_emits_expiration_key_when_unset (a s t : String) (v : Int) :
    getField (ProcessCredential.shadowFields ⟨a, s, t, none, v⟩) "Expiration"
      = some (JValue.str "") ∧
    ProcessCredential.MarshalJSON ⟨"AKIA", "SECRET", "TOKEN", none, 1⟩
      = Except.ok
        "\x7b\"AccessKeyId\":\"AKIA\",\"SecretAccessKey\":\"SECRET\",\"SessionToken\":\"TOKEN\",\"Version\":1,\"Expiration\":\"\"\x7d" := by
  refine ⟨?_, rfl⟩
  rcases eq_or_ne a "" with h1 | h1 <;>
  rcases eq_or_ne s "" with h2 | h2 <;>
  rcases eq_or_ne t "" with h3 | h3 <;>
  rcases eq_or_ne v 0 with h4 | h4 <;>
  simp [ProcessCredential.shadowFields, ProcessCredential.expVar, getField,
    h1, h2, h3, h4]

/-- C2: the claim states that the all-empty credential marshals to `{}`.
The code instead produces `{"Expiration":""}`, because the shadow struct's
`Expiration` tag lacks `omitempty`. This theorem evaluates the embedded
code at that input. -/
theorem marshal_empty_credential_not_empty_object :
    ProcessCredential.MarshalJSON ⟨"", "", "", none, 0⟩
      = Except.ok "\x7b\"Expiration\":\"\"\x7d" := rfl

/-- C3: when an expiration is set, `MarshalJSON` emits its RFC 3339
rendering as the value of the `Expiration` key: for every credential with
`Expiration = some tm` the emitted field list binds `Expiration` to
`formatRFC3339 tm`, and for the concrete instant 2023-06-01T00:00:00Z (UTC)
the output bytes contain `"Expiration":"2023-06-01T00:00:00Z"` exactly. -/
theorem marshal_expiration_rfc3339 :
    (∀ (a s t : String) (v : Int) (tm : GoTime),
      getField (ProcessCredential.shadowFields ⟨a, s, t, some tm, v⟩) "Expiration"
        = some (JValue.str (formatRFC3339 tm))) ∧
    ProcessCredential.MarshalJSON ⟨"", "", "", some ⟨2023, 6, 1, 0, 0, 0, 0⟩, 0⟩
      = Except.ok "\x7b\"Expiration\":\"2023-06-01T00:00:00Z\"\x7d" ∧
    strContains "\x7b\"Expiration\":\"2023-06-01T00:00:00Z\"\x7d"
      "\"Expiration\":\"2023-06-01T00:00:00Z\"" = true := by
  refine ⟨?_, rfl, by decide⟩
  intro a s t v tm
  rcases eq_or_ne a "" with h1 | h1 <;>
  rcases eq_or_ne s "" with h2 | h2 <;>
  rcases eq_or_ne t "" with h3 | h3 <;>
  rcases eq_or_ne v 0 with h4 | h4 <;>
  simp [ProcessCredential.shadowFields, ProcessCredential.expVar, getField,
    ite_empty_string_self, h1, h2, h3, h4]

/-- C4: whenever the `Expiration` key is present in the output of
`MarshalJSON`, its value is a JSON string (never an object, never null):
every binding of the key `Expiration` in the emitted field list carries a
`JValue.str` value. -/
theorem marshal_expiration_value_is_string (c : ProcessCredential)
    (p : String × JValue) (hp : p ∈ c.shadowFields)
    (hk : p.1 = "Expiration") : ∃ s, p.2 = JValue.str s := by
  unfold ProcessCredential.shadowFields at hp
  simp only [List.mem_append] at hp
  rcases hp with ((((hp | hp) | hp) | hp) | hp) <;>
  · split at hp <;> simp only [List.mem_singleton, List.not_mem_nil] at hp
    all_goals first
      | (subst hp; exact ⟨_, rfl⟩)
      | (subst hp;
         exact absurd hk (show ¬("Version" : String) = "Expiration" by decide))

/-- C4 witness: the theorem applied at the all-empty credential, whose
field list is exactly `[("Expiration", JValue.str "")]`. -/
theorem marshal_expiration_value_is_string_witness :
    ∃ s, (("Expiration", JValue.str "") : String × JValue).2 = JValue.str s :=
  marshal_expiration_value_is_string ⟨"", "", "", none, 0⟩
    ("Expiration", JValue.str "") (by decide) rfl

/-- C5: the keys `AccessKeyId`, `SecretAccessKey`, `SessionToken` and
`Version` obey omit-if-empty: each is present in the emitted field list
exactly when its value is a non-empty string / non-zero integer, carrying
that value; and with `Version = 1` the concrete output bytes contain
`"Version":1`. -/
theorem marshal_omit_empty_fields (c : ProcessCredential) :
    getField c.shadowFields "AccessKeyId"
      = (if c.AccessKeyID = "" then none else some (JValue.str c.AccessKeyID)) ∧
    getField c.shadowFields "SecretAccessKey"
      = (if c.SecretAccessKey = "" then none else some (JValue.str c.SecretAccessKey)) ∧
    getField c.shadowFields "SessionToken"
      = (if c.SessionToken = "" then none else some (JValue.str c.SessionToken)) ∧
    getField c.shadowFields "Version"
      = (if c.Version = 0 then none else some (JValue.num c.Version)) ∧
    ProcessCredential.MarshalJSON ⟨"", "", "", none, 1⟩
      = Except.ok "\x7b\"Version\":1,\"Expiration\":\"\"\x7d" ∧
    strContains "\x7b\"Version\":1,\"Expiration\":\"\"\x7d" "\"Version\":1" = true := by
  refine ⟨?_, ?_, ?_, ?_, rfl, by decide⟩ <;>
  · rcases eq_or_ne c.AccessKeyID "" with h1 | h1 <;>
    rcases eq_or_ne c.SecretAccessKey "" with h2 | h2 <;>
    rcases eq_or_ne c.SessionToken "" with h3 | h3 <;>
    rcases eq_or_ne c.Version 0 with h4 | h4 <;>
    simp [ProcessCredential.shadowFields, getField, h1, h2, h3, h4]

/-- C6: the claim states that every produced document decodes back (with
the same optional-expiration presence) and re-encodes byte-identically.
The code breaks this at the encoding step already: a credential without an
expiration produces a document that nevertheless contains an `Expiration`
key, bound to `""` — so decoding cannot preserve the absence of an
expiration (and Go's `time.Time` unmarshaller rejects `""` outright). This
theorem evaluates the embedded code at such a failing input. -/
theorem marshal_roundtrip_emits_empty_expiration :
    ProcessCredential.MarshalJSON ⟨"A", "B", "C", none, 2⟩
      = Except.ok
        "\x7b\"AccessKeyId\":\"A\",\"SecretAccessKey\":\"B\",\"SessionToken\":\"C\",\"Version\":2,\"Expiration\":\"\"\x7d" ∧
    strContains
        "\x7b\"AccessKeyId\":\"A\",\"SecretAccessKey\":\"B\",\"SessionToken\":\"C\",\"Version\":2,\"Expiration\":\"\"\x7d"
        "\"Expiration\":\"\"" = true :=
  ⟨rfl, by decide⟩

/-- C7: `IsCredential` returns `true` unconditionally for every value of
every variant, the no-op sentinel included. -/
theorem isCredential_always_true (e : EnvVarCredential) (c : CredsFileCredential)
    (p : ProcessCredential) (n : NoopCredential) :
    e.IsCredential = true ∧ c.IsCredential = true ∧
    p.IsCredential = true ∧ n.IsCredential = true :=
  ⟨rfl, rfl, rfl, rfl⟩

/-- C8: for every `CredsFileCredential`: as constructed (before any
`SetProfile`) `Profile` returns `""`; after `SetProfile p`, `Profile`
returns `p`; and a later `SetProfile q` overwrites it so `Profile` returns
`q` — last-write-wins, for arbitrary unvalidated names. -/
theorem profile_accessor_semantics (a s t : String) (c : CredsFileCredential)
    (p q : String) :
    (initCredsFileCredential a s t).Profile = "" ∧
    (c.SetProfile p).Profile = p ∧
    ((c.SetProfile p).SetProfile q).Profile = q :=
  ⟨rfl, rfl, rfl⟩

/-- C9: `MarshalJSON` never returns an error: every field of the marshalled
shadow struct is a string or int, on which the JSON encoder is total, so
the result is always `ok`. -/
theorem marshalJSON_never_errors (c : ProcessCredential) :
    ∃ out, c.MarshalJSON = Except.ok out :=
  ⟨_, rfl⟩

/-- C10: `SetProfile` writes only the private `profile` field: the three
credential fields are unchanged by the call. -/
theorem setProfile_frame (c : CredsFileCredential) (p : String) :
    (c.SetProfile p).AccessKeyID = c.AccessKeyID ∧
    (c.SetProfile p).SecretAccessKey = c.SecretAccessKey ∧
    (c.SetProfile p).SessionToken = c.SessionToken ∧
    (c.SetProfile p).profile = p :=
  ⟨rfl, rfl, rfl, rfl⟩

end OktaAws
